import Mathlib

/-!
Verification of `generate_cover_letter.py`, a template-based German cover
letter generator.  The Python source is shallowly embedded below:

* `pyStrip` models `str.strip`, `pyJoin` models `str.join`, and
  `pyFormat` models `template.format(**context)` for the simple
  `{name}` replacement fields used by the template pools (a parse phase
  producing literal/field tokens, then a render phase substituting each
  field from the context; `none` models a raised exception, e.g. a
  `KeyError` for a missing context key or a `ValueError` for an
  unmatched brace).
* `choose_sentence` models the function of the same name; the single
  `random.choice(templates)` draw is made explicit as a natural number
  index reduced modulo the pool size (for a non-empty pool,
  `random.choice` returns exactly the entry at some valid index).
* `Record` models the input JSON object restricted to the eight
  recognized keys (a missing key is `none`, matching `data.get(k, "")`),
  `Draws` carries one explicit random draw per letter section, and
  `generate_letter` mirrors the Python function line by line.
* `mainWrapper` models `main`: standard input is a string (empty when no
  input is available), JSON decoding and any generation fault are
  modelled by an `Except`-valued parameter, and the process effects
  (exit code, stdout, stderr) are returned explicitly in `ProcOut`.
* `pyLines` splits a string at newline characters (the physical lines of
  the generated letter) and `lineCount` counts them.
-/

/-- Model of Python `str.strip()`: remove leading and trailing whitespace
characters.  (Lean's `Char.isWhitespace` covers space, tab, CR and LF,
the whitespace that actually occurs in textual JSON field values.) -/
def pyStrip (s : String) : String :=
  String.mk (((s.data.dropWhile Char.isWhitespace).reverse.dropWhile Char.isWhitespace).reverse)

/-- Model of Python `sep.join(parts)`. -/
def pyJoin (sep : String) : List String → String
  | [] => ""
  | [x] => x
  | x :: xs => x ++ sep ++ pyJoin sep xs

/-- Tokens of a parsed format template: literal runs and `{name}`
replacement fields. -/
inductive Tok where
  | lit : String → Tok
  | fld : String → Tok

/-- Prepend one literal character to a token list, merging adjacent
literal runs. -/
def pushLit (c : Char) : List Tok → List Tok
  | Tok.lit s :: ts => Tok.lit (String.mk (c :: s.data)) :: ts
  | ts => Tok.lit (String.mk [c]) :: ts

/-- Parse a Python format string into tokens.  The first argument is the
parser mode: `none` while scanning literal text, `some acc` while inside
a `{...}` replacement field with the (reversed) name accumulated in
`acc`.  `{{` and `}}` are literal braces; a lone `}` or an unterminated
`{` is a parse error (`str.format` raises `ValueError` there), returned
as `none`. -/
def parseFmtAux : Option (List Char) → List Char → Option (List Tok)
  | none, [] => some []
  | none, '{' :: '{' :: rest => (parseFmtAux none rest).map (pushLit '{')
  | none, '}' :: '}' :: rest => (parseFmtAux none rest).map (pushLit '}')
  | none, '{' :: rest => parseFmtAux (some []) rest
  | none, '}' :: _ => none
  | none, c :: rest => (parseFmtAux none rest).map (pushLit c)
  | some _, [] => none
  | some acc, '}' :: rest =>
      (parseFmtAux none rest).map (fun ts => Tok.fld (String.mk acc.reverse) :: ts)
  | some acc, c :: rest => parseFmtAux (some (c :: acc)) rest

/-- Parse a template string into tokens. -/
def parseFmt (t : String) : Option (List Tok) :=
  parseFmtAux none t.data

/-- Render parsed tokens against a substitution context: each replacement
field is looked up in the context; a missing key is a `KeyError`,
modelled as `none`. -/
def renderToks (ctx : List (String × String)) : List Tok → Option String
  | [] => some ""
  | Tok.lit a :: ts => (renderToks ctx ts).map (fun s => a ++ s)
  | Tok.fld nm :: ts =>
      match ctx.lookup nm with
      | some v => (renderToks ctx ts).map (fun s => v ++ s)
      | none => none

/-- Model of `template.format(**context)`: `some` is the fully
substituted string, `none` a raised exception. -/
def pyFormat (t : String) (ctx : List (String × String)) : Option String :=
  match parseFmt t with
  | some ts => renderToks ctx ts
  | none => none

/-- Model of `choose_sentence` (source lines 49-61).  The
`random.choice(templates)` draw is made explicit: draw `i` selects the
entry at index `i % templates.length` (for a non-empty pool every valid
index arises this way).  If formatting fails the raw template is
returned, mirroring the `try/except` in the source. -/
def choose_sentence (templates : List String) (context : List (String × String)) (i : Nat) : String :=
  let template := templates.getD (i % templates.length) ""
  match pyFormat template context with
  | some s => s
  | none => template

/-- The input record: the eight recognized JSON keys, each optional
(`none` models an absent key, exactly as `data.get(key, "")`). -/
structure Record where
  applicantName : Option String := none
  applicantAddress : Option String := none
  applicantEmail : Option String := none
  applicantPhone : Option String := none
  jobTitle : Option String := none
  companyName : Option String := none
  strengths : Option String := none
  motivation : Option String := none

/-- One explicit random draw per letter section (the source draws from
the global generator once per rendered `choose_sentence` call). -/
structure Draws where
  introDraw : Nat
  strengthsDraw : Nat
  motivationDraw : Nat
  closingDraw : Nat

/-- `applicant_name = data.get("applicantName", "").strip()` (line 75). -/
def applicant_name (r : Record) : String := pyStrip (r.applicantName.getD "")

/-- `applicant_address = data.get("applicantAddress", "").strip()` (line 76). -/
def applicant_address (r : Record) : String := pyStrip (r.applicantAddress.getD "")

/-- `applicant_email = data.get("applicantEmail", "").strip()` (line 77). -/
def applicant_email (r : Record) : String := pyStrip (r.applicantEmail.getD "")

/-- `applicant_phone = data.get("applicantPhone", "").strip()` (line 78). -/
def applicant_phone (r : Record) : String := pyStrip (r.applicantPhone.getD "")

/-- `job_title = data.get("jobTitle", "").strip()` (line 79). -/
def job_title (r : Record) : String := pyStrip (r.jobTitle.getD "")

/-- `company_name = data.get("companyName", "").strip()` (line 80). -/
def company_name (r : Record) : String := pyStrip (r.companyName.getD "")

/-- `strengths = data.get("strengths", "").strip()` (line 81). -/
def strengths (r : Record) : String := pyStrip (r.strengths.getD "")

/-- `motivation = data.get("motivation", "").strip()` (line 82). -/
def motivation (r : Record) : String := pyStrip (r.motivation.getD "")

/-- The introduction template pool (lines 85-89). -/
def introductions : List String :=
  ["Mit großem Interesse habe ich die ausgeschriebene Position als {jobTitle} bei {companyName} gelesen.",
   "Die ausgeschriebene Stelle als {jobTitle} bei {companyName} hat mein besonderes Interesse geweckt.",
   "Als erfahrene Fachkraft im Bereich {jobTitle} bin ich besonders an der Position bei {companyName} interessiert."]

/-- The strengths template pool (lines 91-95). -/
def strength_sentences : List String :=
  ["Mit meiner {strengths} bin ich überzeugt, dass ich die Anforderungen der Position erfülle.",
   "Dank meiner {strengths} sehe ich mich als ideale Besetzung für diese Stelle.",
   "Ich verfüge über {strengths}, die mich befähigen, die mir übertragenen Aufgaben erfolgreich zu erfüllen."]

/-- The motivation template pool (lines 97-101). -/
def motivation_sentences : List String :=
  ["Was mich besonders motiviert, ist {motivation}.",
   "Besonders reizvoll an dieser Stelle finde ich {motivation}.",
   "Meine Motivation für diese Position ergibt sich aus {motivation}."]

/-- The closing template pool (lines 103-107); no placeholders. -/
def closing_sentences : List String :=
  ["Ich freue mich darauf, Sie in einem persönlichen Gespräch kennenzulernen.",
   "Gerne überzeuge ich Sie in einem Vorstellungsgespräch von meinen Fähigkeiten.",
   "Über eine Einladung zu einem persönlichen Gespräch würde ich mich sehr freuen."]

/-- The substitution context built at lines 109-114. -/
def context (r : Record) : List (String × String) :=
  [("jobTitle", job_title r), ("companyName", company_name r),
   ("strengths", strengths r), ("motivation", motivation r)]

/-- The fixed salutation (line 117). -/
def salutation : String := "Sehr geehrte Damen und Herren,"

/-- `intro = choose_sentence(introductions, context)` (line 118). -/
def introPart (r : Record) (d : Draws) : String :=
  choose_sentence introductions (context r) d.introDraw

/-- `strength_part = choose_sentence(...) if strengths else ""` (line 119):
an empty (falsy) `strengths` yields the empty string without a draw. -/
def strength_part (r : Record) (d : Draws) : String :=
  if strengths r = "" then "" else choose_sentence strength_sentences (context r) d.strengthsDraw

/-- `motivation_part = choose_sentence(...) if motivation else ""` (line 120). -/
def motivation_part (r : Record) (d : Draws) : String :=
  if motivation r = "" then "" else choose_sentence motivation_sentences (context r) d.motivationDraw

/-- `closing = choose_sentence(closing_sentences, context)` (line 121). -/
def closingPart (r : Record) (d : Draws) : String :=
  choose_sentence closing_sentences (context r) d.closingDraw

/-- The `contact_lines` list of lines 133-139: the applicant name
followed by each truthy (non-empty) contact field. -/
def contact_lines (r : Record) : List String :=
  [applicant_name r]
  ++ (if applicant_address r = "" then [] else [applicant_address r])
  ++ (if applicant_email r = "" then [] else [applicant_email r])
  ++ (if applicant_phone r = "" then [] else [applicant_phone r])

/-- The final `parts` list of lines 124-140: base sections, the optional
strengths/motivation blocks guarded by the truthiness of the rendered
part, and the prepended contact block when any contact field is truthy. -/
def letterBlocks (r : Record) (d : Draws) : List String :=
  let parts := [salutation, "", introPart r d]
  let parts := parts ++ (if strength_part r d = "" then [] else ["", strength_part r d])
  let parts := parts ++ (if motivation_part r d = "" then [] else ["", motivation_part r d])
  let parts := parts ++ ["", closingPart r d, "", "Mit freundlichen Grüßen", applicant_name r]
  if applicant_address r ≠ "" ∨ applicant_email r ≠ "" ∨ applicant_phone r ≠ "" then
    [pyJoin "\n" (contact_lines r), ""] ++ parts
  else parts

/-- `generate_letter` (lines 64-142).  The source's final
`"\n".join(part for part in parts if part is not None)` filter is the
identity here because every element of `parts` is a string, never
`None`. -/
def generate_letter (r : Record) (d : Draws) : String :=
  pyJoin "\n" (letterBlocks r d)

/-- Observable process effects of one `main` invocation. -/
structure ProcOut where
  exitCode : Nat
  stdout : String
  stderr : String

/-- Model of `main` (lines 145-156).  `stdin` is the full text read from
standard input (empty when none is available); `decode` models
`json.loads` plus the extraction of the eight recognized string fields,
and `gen` models the call of `generate_letter` — each returns
`Except.error msg` when the corresponding Python code raises an
exception with message `msg`.  Any error reaches the single `except`
handler: nothing on stdout, one diagnostic line on stderr, exit 1. -/
def mainWrapper (stdin : String) (decode : String → Except String Record)
    (gen : Record → Except String String) : ProcOut :=
  let result : Except String String :=
    if stdin = "" then Except.error "No input provided to the letter generator"
    else
      match decode stdin with
      | Except.error e => Except.error e
      | Except.ok data =>
          match gen data with
          | Except.error e => Except.error e
          | Except.ok letter => Except.ok letter
  match result with
  | Except.ok letter => ⟨0, letter, ""⟩
  | Except.error msg => ⟨1, "", "Error generating letter: " ++ msg ++ "\n"⟩

/-- Split a string at newline characters; `acc` holds the reversed
characters of the current line. -/
def splitLinesAux : List Char → List Char → List String
  | acc, [] => [String.mk acc.reverse]
  | acc, c :: rest =>
      if c = '\n' then String.mk acc.reverse :: splitLinesAux [] rest
      else splitLinesAux (c :: acc) rest

/-- The physical lines of a string (split at every newline character). -/
def pyLines (s : String) : List String :=
  splitLinesAux [] s.data

/-- The number of physical lines of a string. -/
def lineCount (s : String) : Nat :=
  (pyLines s).length

/-- Specification-side regrouping of the non-contact blocks: the same
list as the `parts` built at lines 124-129, with the optional sections
guarded directly by the emptiness of the corresponding trimmed input
field. -/
def baseBlocks (r : Record) (d : Draws) : List String :=
  [salutation, "", introPart r d]
  ++ (if strengths r = "" then [] else ["", choose_sentence strength_sentences (context r) d.strengthsDraw])
  ++ (if motivation r = "" then [] else ["", choose_sentence motivation_sentences (context r) d.motivationDraw])
  ++ ["", closingPart r d, "", "Mit freundlichen Grüßen", applicant_name r]

/-- A fully populated example record (every recognized field present and
non-empty). -/
def recW : Record :=
  { applicantName := some "Max Mustermann", applicantAddress := some "Musterstraße 1, 12345 Ort",
    applicantEmail := some "max@example.com", applicantPhone := some "+49 1234 5678",
    jobTitle := some "Entwickler", companyName := some "ACME GmbH",
    strengths := some "fünf Jahre Erfahrung", motivation := some "innovative Projekte" }

/-- A record whose applicant name contains an embedded newline while all
eight recognized fields are non-empty after trimming. -/
def recNlName : Record :=
  { applicantName := some "Anna Muster\nzweite Zeile", applicantAddress := some "Weg 2",
    applicantEmail := some "a@b.de", applicantPhone := some "+49 1",
    jobTitle := some "Tester", companyName := some "Firma",
    strengths := some "Sorgfalt", motivation := some "Qualität" }

/-- A record whose only non-empty contact field contains an embedded
newline. -/
def recNlAddr : Record :=
  { applicantName := some "Max", applicantAddress := some "Gasse 3\nHinterhaus" }

/-- A record with a strengths value containing an embedded newline. -/
def recStrNl : Record :=
  { applicantName := some "Max", strengths := some "Teamarbeit\nSorgfalt" }

/-- `recStrNl` with the strengths field omitted. -/
def recNoStr : Record :=
  { applicantName := some "Max" }

/-- A record with an absent applicant name but a present address. -/
def recNoName : Record :=
  { applicantAddress := some "Weg 5" }

/-- All-zero draw indices (every pool picks its first variant). -/
def dZero : Draws := ⟨0, 0, 0, 0⟩

/-- A decoder stub for wrapper witnesses: every input decodes to `recW`. -/
def decodeW : String → Except String Record := fun _ => Except.ok recW

/-- Strings with equal character data are equal. -/
lemma strExt {a b : String} (h : a.data = b.data) : a = b := by
  cases a; cases b; exact congrArg String.mk h

/-- Rebuilding a string from its character data is the identity. -/
lemma strMk_data (s : String) : String.mk s.data = s := by
  cases s; rfl

/-- An append whose left part is non-empty is non-empty. -/
lemma append_ne_empty_left (a b : String) (ha : a ≠ "") : a ++ b ≠ "" := by
  intro h
  apply ha
  have hd := congrArg String.data h
  rw [String.data_append] at hd
  have h0 : a.data = [] := (List.append_eq_nil.mp hd).1
  exact strExt (by simpa using h0)

/-- Unfolding `pyJoin` on a list with at least two elements. -/
lemma pyJoin_cons_cons (sep x y : String) (xs : List String) :
    pyJoin sep (x :: y :: xs) = x ++ sep ++ pyJoin sep (y :: xs) := rfl

/-- `pyJoin` distributes over an append of two non-empty lists. -/
lemma pyJoin_append (sep : String) (L1 L2 : List String) (h1 : L1 ≠ []) (h2 : L2 ≠ []) :
    pyJoin sep (L1 ++ L2) = pyJoin sep L1 ++ sep ++ pyJoin sep L2 := by
  induction L1 with
  | nil => exact absurd rfl h1
  | cons x xs ih =>
    cases xs with
    | nil =>
      obtain ⟨y, ys, rfl⟩ : ∃ y ys, L2 = y :: ys := by
        cases L2 with
        | nil => exact absurd rfl h2
        | cons y ys => exact ⟨y, ys, rfl⟩
      rfl
    | cons a as =>
      have step := ih (by simp)
      calc pyJoin sep ((x :: a :: as) ++ L2)
          = x ++ sep ++ pyJoin sep ((a :: as) ++ L2) := rfl
        _ = x ++ sep ++ (pyJoin sep (a :: as) ++ sep ++ pyJoin sep L2) := by rw [step]
        _ = pyJoin sep (x :: a :: as) ++ sep ++ pyJoin sep L2 := by
              rw [pyJoin_cons_cons]; simp [String.append_assoc]

/-- Joining an already joined block with further blocks flattens. -/
lemma pyJoin_cons_flatten (sep : String) (M rest : List String) (hM : M ≠ []) (hrest : rest ≠ []) :
    pyJoin sep (pyJoin sep M :: rest) = pyJoin sep (M ++ rest) := by
  rw [pyJoin_append sep M rest hM hrest]
  cases rest with
  | nil => exact absurd rfl hrest
  | cons y ys => rfl

/-- `splitLinesAux` splits at the first retained newline. -/
lemma splitLinesAux_append (acc xs ys : List Char) :
    splitLinesAux acc (xs ++ '\n' :: ys) = splitLinesAux acc xs ++ splitLinesAux [] ys := by
  induction xs generalizing acc with
  | nil => simp [splitLinesAux]
  | cons c cs ih =>
    by_cases hc : c = '\n'
    · subst hc; simp [splitLinesAux, ih]
    · simp [splitLinesAux, hc, ih]

/-- A chunk without newlines is one line. -/
lemma splitLinesAux_no_newline (acc l : List Char) (h : '\n' ∉ l) :
    splitLinesAux acc l = [String.mk (acc.reverse ++ l)] := by
  induction l generalizing acc with
  | nil => simp [splitLinesAux]
  | cons c cs ih =>
    have hc : c ≠ '\n' := by rintro rfl; exact h (List.mem_cons_self _ _)
    have hcs : '\n' ∉ cs := fun hm => h (List.mem_cons_of_mem _ hm)
    simp [splitLinesAux, hc, ih _ hcs]

/-- `pyLines` splits around a separating newline. -/
lemma pyLines_append_newline (a b : String) :
    pyLines (a ++ "\n" ++ b) = pyLines a ++ pyLines b := by
  unfold pyLines
  rw [String.data_append, String.data_append]
  rw [List.append_assoc]
  exact splitLinesAux_append [] a.data b.data

/-- A newline-free string is a single line. -/
lemma pyLines_no_newline (s : String) (h : '\n' ∉ s.data) : pyLines s = [s] := by
  unfold pyLines
  rw [splitLinesAux_no_newline [] s.data h]
  simp [strMk_data]

/-- The lines of a newline-join are the lines of the parts. -/
lemma pyLines_pyJoin (L : List String) (hL : L ≠ []) :
    pyLines (pyJoin "\n" L) = (L.map pyLines).flatten := by
  induction L with
  | nil => exact absurd rfl hL
  | cons x xs ih =>
    cases xs with
    | nil => simp [pyJoin]
    | cons y ys =>
      rw [pyJoin_cons_cons, pyLines_append_newline, ih (by simp)]
      simp

/-- Line count of a newline-join: total number of lines of the parts. -/
lemma lineCount_pyJoin (L : List String) (hL : L ≠ []) :
    lineCount (pyJoin "\n" L) = (L.map (fun b => (pyLines b).length)).sum := by
  unfold lineCount
  rw [pyLines_pyJoin L hL, List.length_flatten, List.map_map]
  rfl

/-- Flattening the per-string line lists of newline-free strings is the
identity. -/
lemma flatten_lines_of_no_newline (L : List String) (h : ∀ x ∈ L, '\n' ∉ x.data) :
    (L.map pyLines).flatten = L := by
  induction L with
  | nil => rfl
  | cons x xs ih =>
    have hx := h x (List.mem_cons_self _ _)
    have hxs : ∀ y ∈ xs, '\n' ∉ y.data := fun y hy => h y (List.mem_cons_of_mem _ hy)
    simp [pyLines_no_newline x hx, ih hxs]

/-- The three possible values of a draw index modulo a pool of size 3. -/
lemma pool3_cases (i : Nat) : i % 3 = 0 ∨ i % 3 = 1 ∨ i % 3 = 2 := by omega

/-- Evaluation of the first introduction template under the letter
context. -/
lemma choose_intro_0 (r : Record) (i : Nat) (h : i % introductions.length = 0) :
    choose_sentence introductions (context r) i =
      "Mit großem Interesse habe ich die ausgeschriebene Position als "
        ++ (job_title r ++ (" bei " ++ (company_name r ++ " gelesen."))) := by
  simp only [choose_sentence]
  rw [h]
  rfl

/-- Evaluation of the second introduction template. -/
lemma choose_intro_1 (r : Record) (i : Nat) (h : i % introductions.length = 1) :
    choose_sentence introductions (context r) i =
      "Die ausgeschriebene Stelle als "
        ++ (job_title r ++ (" bei " ++ (company_name r ++ " hat mein besonderes Interesse geweckt."))) := by
  simp only [choose_sentence]
  rw [h]
  rfl

/-- Evaluation of the third introduction template. -/
lemma choose_intro_2 (r : Record) (i : Nat) (h : i % introductions.length = 2) :
    choose_sentence introductions (context r) i =
      "Als erfahrene Fachkraft im Bereich "
        ++ (job_title r ++ (" bin ich besonders an der Position bei " ++ (company_name r ++ " interessiert."))) := by
  simp only [choose_sentence]
  rw [h]
  rfl

/-- Evaluation of the first strengths template. -/
lemma choose_str_0 (r : Record) (i : Nat) (h : i % strength_sentences.length = 0) :
    choose_sentence strength_sentences (context r) i =
      "Mit meiner " ++ (strengths r ++ " bin ich überzeugt, dass ich die Anforderungen der Position erfülle.") := by
  simp only [choose_sentence]
  rw [h]
  rfl

/-- Evaluation of the second strengths template. -/
lemma choose_str_1 (r : Record) (i : Nat) (h : i % strength_sentences.length = 1) :
    choose_sentence strength_sentences (context r) i =
      "Dank meiner " ++ (strengths r ++ " sehe ich mich als ideale Besetzung für diese Stelle.") := by
  simp only [choose_sentence]
  rw [h]
  rfl

/-- Evaluation of the third strengths template. -/
lemma choose_str_2 (r : Record) (i : Nat) (h : i % strength_sentences.length = 2) :
    choose_sentence strength_sentences (context r) i =
      "Ich verfüge über "
        ++ (strengths r ++ ", die mich befähigen, die mir übertragenen Aufgaben erfolgreich zu erfüllen.") := by
  simp only [choose_sentence]
  rw [h]
  rfl

/-- Evaluation of the first motivation template. -/
lemma choose_mot_0 (r : Record) (i : Nat) (h : i % motivation_sentences.length = 0) :
    choose_sentence motivation_sentences (context r) i =
      "Was mich besonders motiviert, ist " ++ (motivation r ++ ".") := by
  simp only [choose_sentence]
  rw [h]
  rfl

/-- Evaluation of the second motivation template. -/
lemma choose_mot_1 (r : Record) (i : Nat) (h : i % motivation_sentences.length = 1) :
    choose_sentence motivation_sentences (context r) i =
      "Besonders reizvoll an dieser Stelle finde ich " ++ (motivation r ++ ".") := by
  simp only [choose_sentence]
  rw [h]
  rfl

/-- Evaluation of the third motivation template. -/
lemma choose_mot_2 (r : Record) (i : Nat) (h : i % motivation_sentences.length = 2) :
    choose_sentence motivation_sentences (context r) i =
      "Meine Motivation für diese Position ergibt sich aus " ++ (motivation r ++ ".") := by
  simp only [choose_sentence]
  rw [h]
  rfl

/-- Evaluation of the first closing template (no placeholders). -/
lemma choose_clo_0 (r : Record) (i : Nat) (h : i % closing_sentences.length = 0) :
    choose_sentence closing_sentences (context r) i =
      "Ich freue mich darauf, Sie in einem persönlichen Gespräch kennenzulernen." := by
  simp only [choose_sentence]
  rw [h]
  rfl

/-- Evaluation of the second closing template. -/
lemma choose_clo_1 (r : Record) (i : Nat) (h : i % closing_sentences.length = 1) :
    choose_sentence closing_sentences (context r) i =
      "Gerne überzeuge ich Sie in einem Vorstellungsgespräch von meinen Fähigkeiten." := by
  simp only [choose_sentence]
  rw [h]
  rfl

/-- Evaluation of the third closing template. -/
lemma choose_clo_2 (r : Record) (i : Nat) (h : i % closing_sentences.length = 2) :
    choose_sentence closing_sentences (context r) i =
      "Über eine Einladung zu einem persönlichen Gespräch würde ich mich sehr freuen." := by
  simp only [choose_sentence]
  rw [h]
  rfl

/-- Every rendered introduction sentence is non-empty. -/
lemma choose_intro_ne (r : Record) (i : Nat) :
    choose_sentence introductions (context r) i ≠ "" := by
  rcases pool3_cases i with h | h | h
  · rw [choose_intro_0 r i h]; exact append_ne_empty_left _ _ (by decide)
  · rw [choose_intro_1 r i h]; exact append_ne_empty_left _ _ (by decide)
  · rw [choose_intro_2 r i h]; exact append_ne_empty_left _ _ (by decide)

/-- Every rendered strengths sentence is non-empty. -/
lemma choose_str_ne (r : Record) (i : Nat) :
    choose_sentence strength_sentences (context r) i ≠ "" := by
  rcases pool3_cases i with h | h | h
  · rw [choose_str_0 r i h]; exact append_ne_empty_left _ _ (by decide)
  · rw [choose_str_1 r i h]; exact append_ne_empty_left _ _ (by decide)
  · rw [choose_str_2 r i h]; exact append_ne_empty_left _ _ (by decide)

/-- Every rendered motivation sentence is non-empty. -/
lemma choose_mot_ne (r : Record) (i : Nat) :
    choose_sentence motivation_sentences (context r) i ≠ "" := by
  rcases pool3_cases i with h | h | h
  · rw [choose_mot_0 r i h]; exact append_ne_empty_left _ _ (by decide)
  · rw [choose_mot_1 r i h]; exact append_ne_empty_left _ _ (by decide)
  · rw [choose_mot_2 r i h]; exact append_ne_empty_left _ _ (by decide)

/-- Every rendered closing sentence is non-empty. -/
lemma choose_clo_ne (r : Record) (i : Nat) :
    choose_sentence closing_sentences (context r) i ≠ "" := by
  rcases pool3_cases i with h | h | h
  · rw [choose_clo_0 r i h]; decide
  · rw [choose_clo_1 r i h]; decide
  · rw [choose_clo_2 r i h]; decide

/-- A rendered strengths sentence contains no newline when the strengths
value contains none. -/
lemma choose_str_no_newline (r : Record) (i : Nat) (h : '\n' ∉ (strengths r).data) :
    '\n' ∉ (choose_sentence strength_sentences (context r) i).data := by
  rcases pool3_cases i with hi | hi | hi
  · rw [choose_str_0 r i hi]
    simp only [String.data_append, List.mem_append]
    push_neg
    exact ⟨by decide, h, by decide⟩
  · rw [choose_str_1 r i hi]
    simp only [String.data_append, List.mem_append]
    push_neg
    exact ⟨by decide, h, by decide⟩
  · rw [choose_str_2 r i hi]
    simp only [String.data_append, List.mem_append]
    push_neg
    exact ⟨by decide, h, by decide⟩

/-- A rendered motivation sentence contains no newline when the
motivation value contains none. -/
lemma choose_mot_no_newline (r : Record) (i : Nat) (h : '\n' ∉ (motivation r).data) :
    '\n' ∉ (choose_sentence motivation_sentences (context r) i).data := by
  rcases pool3_cases i with hi | hi | hi
  · rw [choose_mot_0 r i hi]
    simp only [String.data_append, List.mem_append]
    push_neg
    exact ⟨by decide, h, by decide⟩
  · rw [choose_mot_1 r i hi]
    simp only [String.data_append, List.mem_append]
    push_neg
    exact ⟨by decide, h, by decide⟩
  · rw [choose_mot_2 r i hi]
    simp only [String.data_append, List.mem_append]
    push_neg
    exact ⟨by decide, h, by decide⟩

/-- Introduction rendering depends only on the job title and company
name fields of the context. -/
lemma choose_intro_ctx (r q : Record) (i : Nat)
    (hj : job_title r = job_title q) (hc : company_name r = company_name q) :
    choose_sentence introductions (context r) i = choose_sentence introductions (context q) i := by
  rcases pool3_cases i with h | h | h
  · rw [choose_intro_0 r i h, choose_intro_0 q i h, hj, hc]
  · rw [choose_intro_1 r i h, choose_intro_1 q i h, hj, hc]
  · rw [choose_intro_2 r i h, choose_intro_2 q i h, hj, hc]

/-- Strengths rendering depends only on the strengths field of the
context. -/
lemma choose_str_ctx (r q : Record) (i : Nat) (hs : strengths r = strengths q) :
    choose_sentence strength_sentences (context r) i
      = choose_sentence strength_sentences (context q) i := by
  rcases pool3_cases i with h | h | h
  · rw [choose_str_0 r i h, choose_str_0 q i h, hs]
  · rw [choose_str_1 r i h, choose_str_1 q i h, hs]
  · rw [choose_str_2 r i h, choose_str_2 q i h, hs]

/-- Motivation rendering depends only on the motivation field of the
context. -/
lemma choose_mot_ctx (r q : Record) (i : Nat) (hm : motivation r = motivation q) :
    choose_sentence motivation_sentences (context r) i
      = choose_sentence motivation_sentences (context q) i := by
  rcases pool3_cases i with h | h | h
  · rw [choose_mot_0 r i h, choose_mot_0 q i h, hm]
  · rw [choose_mot_1 r i h, choose_mot_1 q i h, hm]
  · rw [choose_mot_2 r i h, choose_mot_2 q i h, hm]

/-- Closing rendering does not depend on the record at all. -/
lemma choose_clo_ctx (r q : Record) (i : Nat) :
    choose_sentence closing_sentences (context r) i
      = choose_sentence closing_sentences (context q) i := by
  rcases pool3_cases i with h | h | h
  · rw [choose_clo_0 r i h, choose_clo_0 q i h]
  · rw [choose_clo_1 r i h, choose_clo_1 q i h]
  · rw [choose_clo_2 r i h, choose_clo_2 q i h]

/-- The rendered strengths part is empty exactly when the trimmed
strengths field is empty. -/
lemma strength_part_empty_iff (r : Record) (d : Draws) :
    (strength_part r d = "" ↔ strengths r = "") := by
  unfold strength_part
  by_cases h : strengths r = ""
  · simp [h]
  · simp [h, choose_str_ne r d.strengthsDraw]

/-- The rendered motivation part is empty exactly when the trimmed
motivation field is empty. -/
lemma motivation_part_empty_iff (r : Record) (d : Draws) :
    (motivation_part r d = "" ↔ motivation r = "") := by
  unfold motivation_part
  by_cases h : motivation r = ""
  · simp [h]
  · simp [h, choose_mot_ne r d.motivationDraw]

/-- The `parts` list of the source, regrouped: the truthiness tests on
the rendered strengths/motivation parts coincide with the emptiness of
the corresponding trimmed input fields. -/
lemma letterBlocks_eq (r : Record) (d : Draws) :
    letterBlocks r d =
      (if applicant_address r ≠ "" ∨ applicant_email r ≠ "" ∨ applicant_phone r ≠ ""
        then [pyJoin "\n" (contact_lines r), ""] else [])
      ++ baseBlocks r d := by
  unfold letterBlocks baseBlocks
  by_cases hs : strengths r = "" <;> by_cases hm : motivation r = "" <;>
    by_cases hc : applicant_address r ≠ "" ∨ applicant_email r ≠ "" ∨ applicant_phone r ≠ "" <;>
      simp [strength_part, motivation_part, hs, hm, hc,
            choose_str_ne r d.strengthsDraw, choose_mot_ne r d.motivationDraw]

/-- The contact line list always starts with the applicant name. -/
lemma contact_lines_ne_nil (r : Record) : contact_lines r ≠ [] := by
  unfold contact_lines
  simp

/-- The base block list is non-empty. -/
lemma baseBlocks_ne_nil (r : Record) (d : Draws) : baseBlocks r d ≠ [] := by
  unfold baseBlocks
  simp

/-- The base blocks start with the salutation and a blank block. -/
lemma baseBlocks_shape (r : Record) (d : Draws) :
    ∃ tl, baseBlocks r d = salutation :: "" :: tl :=
  ⟨_, rfl⟩

/-- The base blocks end with the signature line and the applicant name. -/
lemma baseBlocks_concat (r : Record) (d : Draws) :
    baseBlocks r d =
      ([salutation, "", introPart r d]
        ++ (if strengths r = "" then []
            else ["", choose_sentence strength_sentences (context r) d.strengthsDraw])
        ++ (if motivation r = "" then []
            else ["", choose_sentence motivation_sentences (context r) d.motivationDraw])
        ++ ["", closingPart r d, ""])
      ++ ["Mit freundlichen Grüßen", applicant_name r] := by
  unfold baseBlocks
  simp [List.append_assoc]

/-- The letter is the newline-join of its block list. -/
lemma generate_letter_blocks (r : Record) (d : Draws) :
    generate_letter r d = pyJoin "\n" (letterBlocks r d) := rfl

/-- The block list is non-empty. -/
lemma letterBlocks_ne_nil (r : Record) (d : Draws) : letterBlocks r d ≠ [] := by
  rw [letterBlocks_eq]
  intro h
  exact baseBlocks_ne_nil r d (List.append_eq_nil.mp h).2

/-- With at least one truthy contact field, the letter flattens to the
contact lines, a blank block, and the base blocks. -/
lemma generate_letter_contact (r : Record) (d : Draws)
    (hc : applicant_address r ≠ "" ∨ applicant_email r ≠ "" ∨ applicant_phone r ≠ "") :
    generate_letter r d = pyJoin "\n" (contact_lines r ++ "" :: baseBlocks r d) := by
  rw [generate_letter_blocks, letterBlocks_eq, if_pos hc]
  exact pyJoin_cons_flatten "\n" (contact_lines r) ("" :: baseBlocks r d)
    (contact_lines_ne_nil r) (by simp)

/-- With no truthy contact field, the letter is the join of the base
blocks alone. -/
lemma generate_letter_nocontact (r : Record) (d : Draws)
    (hc : ¬(applicant_address r ≠ "" ∨ applicant_email r ≠ "" ∨ applicant_phone r ≠ "")) :
    generate_letter r d = pyJoin "\n" (baseBlocks r d) := by
  rw [generate_letter_blocks, letterBlocks_eq, if_neg hc]
  rfl

/-- With every recognized field non-empty, the contact line list is the
name followed by address, email and phone. -/
lemma contact_lines_full (r : Record)
    (ha : applicant_address r ≠ "") (he : applicant_email r ≠ "") (hp : applicant_phone r ≠ "") :
    contact_lines r =
      [applicant_name r, applicant_address r, applicant_email r, applicant_phone r] := by
  unfold contact_lines
  simp [ha, he, hp]

/-- The letter's line count is the total line count of its blocks. -/
lemma lineCount_generate (r : Record) (d : Draws) :
    lineCount (generate_letter r d)
      = ((letterBlocks r d).map (fun b => (pyLines b).length)).sum := by
  rw [generate_letter_blocks]
  exact lineCount_pyJoin _ (letterBlocks_ne_nil r d)

/-- C2: in every letter the introduction and the closing are produced by
the template selector over their pools (regardless of whether the job
title or company name fields are empty — no condition guards them),
while the strengths block appears in the block list exactly when the
trimmed strengths field is non-empty, and the motivation block exactly
when the trimmed motivation field is non-empty; an omitted section
contributes no block at all (the empty list), not an empty-substituted
sentence. -/
theorem letter_sections_presence (r : Record) (d : Draws) :
    introPart r d = choose_sentence introductions (context r) d.introDraw
    ∧ closingPart r d = choose_sentence closing_sentences (context r) d.closingDraw
    ∧ letterBlocks r d =
        (if applicant_address r ≠ "" ∨ applicant_email r ≠ "" ∨ applicant_phone r ≠ ""
          then [pyJoin "\n" (contact_lines r), ""] else [])
        ++ ([salutation, "", introPart r d]
            ++ (if strengths r = "" then []
                else ["", choose_sentence strength_sentences (context r) d.strengthsDraw])
            ++ (if motivation r = "" then []
                else ["", choose_sentence motivation_sentences (context r) d.motivationDraw])
            ++ ["", closingPart r d, "", "Mit freundlichen Grüßen", applicant_name r]) :=
  ⟨rfl, rfl, letterBlocks_eq r d⟩

/-- C4: for a non-empty pool, `choose_sentence` is total and two-valued:
it returns the fully substituted rendering of the selected template when
formatting succeeds, and the raw template text when formatting fails
(`pyFormat = none` models the caught exception); no fault propagates. -/
theorem choose_sentence_total (templates : List String) (c : List (String × String)) (i : Nat)
    (h : templates ≠ []) :
    ∃ t, t ∈ templates
      ∧ ((∃ s, pyFormat t c = some s ∧ choose_sentence templates c i = s)
         ∨ (pyFormat t c = none ∧ choose_sentence templates c i = t)) := by
  have hlt : i % templates.length < templates.length := Nat.mod_lt _ (List.length_pos.mpr h)
  refine ⟨templates.getD (i % templates.length) "", ?_, ?_⟩
  · rw [List.getD_eq_getElem templates "" hlt]
    exact List.getElem_mem hlt
  · cases hpf : pyFormat (templates.getD (i % templates.length) "") c with
    | some s => exact Or.inl ⟨s, rfl, by simp only [choose_sentence, hpf]⟩
    | none => exact Or.inr ⟨rfl, by simp only [choose_sentence, hpf]⟩

/-- Witness for C4 at a concrete pool, context and draw. -/
theorem choose_sentence_total_witness :
    ∃ t, t ∈ introductions
      ∧ ((∃ s, pyFormat t [] = some s ∧ choose_sentence introductions [] 0 = s)
         ∨ (pyFormat t [] = none ∧ choose_sentence introductions [] 0 = t)) :=
  choose_sentence_total introductions [] 0 (by decide)

/-- C6: the letter is a function of the input record and the explicit
draws alone (same record and same draws give the identical string), and
the draws never change which sections are present: the emptiness of the
rendered strengths/motivation parts and the length of the block list
are the same for any two draw tuples. -/
theorem letter_structure_draw_independent (r : Record) (d1 d2 : Draws) :
    (d1 = d2 → generate_letter r d1 = generate_letter r d2)
    ∧ (strength_part r d1 = "" ↔ strength_part r d2 = "")
    ∧ (motivation_part r d1 = "" ↔ motivation_part r d2 = "")
    ∧ (letterBlocks r d1).length = (letterBlocks r d2).length := by
  refine ⟨fun h => by rw [h], ?_, ?_, ?_⟩
  · rw [strength_part_empty_iff, strength_part_empty_iff]
  · rw [motivation_part_empty_iff, motivation_part_empty_iff]
  · rw [letterBlocks_eq, letterBlocks_eq]
    unfold baseBlocks
    by_cases hs : strengths r = "" <;> by_cases hm : motivation r = "" <;>
      by_cases hc : applicant_address r ≠ "" ∨ applicant_email r ≠ "" ∨ applicant_phone r ≠ "" <;>
        simp [hs, hm, hc]

/-- Witness for C6 at a concrete record and equal draw tuples. -/
theorem letter_structure_draw_independent_witness :
    generate_letter recW dZero = generate_letter recW dZero
    ∧ (strength_part recW dZero = "" ↔ strength_part recW dZero = "")
    ∧ (motivation_part recW dZero = "" ↔ motivation_part recW dZero = "")
    ∧ (letterBlocks recW dZero).length = (letterBlocks recW dZero).length := by
  have h := letter_structure_draw_independent recW dZero dZero
  exact ⟨h.1 rfl, h.2.1, h.2.2.1, h.2.2.2⟩

/-- C7: the wrapper writes nothing to stdout and a single diagnostic
line `Error generating letter: <message>` to stderr with exit status 1
when stdin is empty (message referencing "No input provided"), when
decoding fails, or when generation fails; on success it exits 0 and
writes exactly the generated letter to stdout. -/
theorem wrapper_process_contract (decode : String → Except String Record)
    (gen : Record → Except String String) :
    mainWrapper "" decode gen
        = ⟨1, "", "Error generating letter: "
            ++ ("No input provided" ++ " to the letter generator") ++ "\n"⟩
    ∧ (∀ s msg, s ≠ "" → decode s = Except.error msg →
        mainWrapper s decode gen = ⟨1, "", "Error generating letter: " ++ msg ++ "\n"⟩)
    ∧ (∀ s rec msg, s ≠ "" → decode s = Except.ok rec → gen rec = Except.error msg →
        mainWrapper s decode gen = ⟨1, "", "Error generating letter: " ++ msg ++ "\n"⟩)
    ∧ (∀ s rec letter, s ≠ "" → decode s = Except.ok rec → gen rec = Except.ok letter →
        mainWrapper s decode gen = ⟨0, letter, ""⟩)
    ∧ (∀ s rec d, s ≠ "" → decode s = Except.ok rec →
        mainWrapper s decode (fun x => Except.ok (generate_letter x d))
          = ⟨0, generate_letter rec d, ""⟩) := by
  refine ⟨rfl, ?_, ?_, ?_, ?_⟩
  · intro s msg hs hd
    simp [mainWrapper, hs, hd]
  · intro s rec msg hs hd hg
    simp [mainWrapper, hs, hd, hg]
  · intro s rec letter hs hd hg
    simp [mainWrapper, hs, hd, hg]
  · intro s rec d hs hd
    simp [mainWrapper, hs, hd]

/-- Witness for C7: a successful run with a concrete decoder. -/
theorem wrapper_process_contract_witness :
    mainWrapper "x" decodeW (fun x => Except.ok (generate_letter x dZero))
      = ⟨0, generate_letter recW dZero, ""⟩ :=
  (wrapper_process_contract decodeW (fun x => Except.ok (generate_letter x dZero))).2.2.2.2
    "x" recW dZero (by decide) rfl

/-- C8: an absent recognized field is treated exactly as the empty
string: replacing any one field by `none` or by `some ""` yields the
same letter; `generate_letter` is total on such records by construction
and accepts the present string values verbatim. -/
theorem absent_fields_as_empty (r : Record) (d : Draws) :
    generate_letter { r with applicantName := none } d
        = generate_letter { r with applicantName := some "" } d
    ∧ generate_letter { r with applicantAddress := none } d
        = generate_letter { r with applicantAddress := some "" } d
    ∧ generate_letter { r with applicantEmail := none } d
        = generate_letter { r with applicantEmail := some "" } d
    ∧ generate_letter { r with applicantPhone := none } d
        = generate_letter { r with applicantPhone := some "" } d
    ∧ generate_letter { r with jobTitle := none } d
        = generate_letter { r with jobTitle := some "" } d
    ∧ generate_letter { r with companyName := none } d
        = generate_letter { r with companyName := some "" } d
    ∧ generate_letter { r with strengths := none } d
        = generate_letter { r with strengths := some "" } d
    ∧ generate_letter { r with motivation := none } d
        = generate_letter { r with motivation := some "" } d :=
  ⟨rfl, rfl, rfl, rfl, rfl, rfl, rfl, rfl⟩

/-- C9: under the context built by `generate_letter` every template of
the four built-in pools formats successfully — the raw-template fallback
of `choose_sentence` is unreachable inside `generate_letter`. -/
theorem pools_fully_substituted (r : Record) (i : Nat) (P : List String)
    (hP : P = introductions ∨ P = strength_sentences ∨ P = motivation_sentences
          ∨ P = closing_sentences) :
    ∃ s, pyFormat (P.getD (i % P.length) "") (context r) = some s
        ∧ choose_sentence P (context r) i = s := by
  rcases hP with rfl | rfl | rfl | rfl
  · rcases pool3_cases i with h | h | h
    · refine ⟨_, ?_, choose_intro_0 r i h⟩
      rw [show i % introductions.length = 0 from h]
      rfl
    · refine ⟨_, ?_, choose_intro_1 r i h⟩
      rw [show i % introductions.length = 1 from h]
      rfl
    · refine ⟨_, ?_, choose_intro_2 r i h⟩
      rw [show i % introductions.length = 2 from h]
      rfl
  · rcases pool3_cases i with h | h | h
    · refine ⟨_, ?_, choose_str_0 r i h⟩
      rw [show i % strength_sentences.length = 0 from h]
      rfl
    · refine ⟨_, ?_, choose_str_1 r i h⟩
      rw [show i % strength_sentences.length = 1 from h]
      rfl
    · refine ⟨_, ?_, choose_str_2 r i h⟩
      rw [show i % strength_sentences.length = 2 from h]
      rfl
  · rcases pool3_cases i with h | h | h
    · refine ⟨_, ?_, choose_mot_0 r i h⟩
      rw [show i % motivation_sentences.length = 0 from h]
      rfl
    · refine ⟨_, ?_, choose_mot_1 r i h⟩
      rw [show i % motivation_sentences.length = 1 from h]
      rfl
    · refine ⟨_, ?_, choose_mot_2 r i h⟩
      rw [show i % motivation_sentences.length = 2 from h]
      rfl
  · rcases pool3_cases i with h | h | h
    · refine ⟨_, ?_, choose_clo_0 r i h⟩
      rw [show i % closing_sentences.length = 0 from h]
      rfl
    · refine ⟨_, ?_, choose_clo_1 r i h⟩
      rw [show i % closing_sentences.length = 1 from h]
      rfl
    · refine ⟨_, ?_, choose_clo_2 r i h⟩
      rw [show i % closing_sentences.length = 2 from h]
      rfl

/-- Witness for C9 at the introduction pool and a concrete record. -/
theorem pools_fully_substituted_witness :
    ∃ s, pyFormat (introductions.getD (0 % introductions.length) "") (context recW) = some s
        ∧ choose_sentence introductions (context recW) 0 = s :=
  pools_fully_substituted recW 0 introductions (Or.inl rfl)

/-- C10: with an empty trimmed applicant name the name line is still
emitted as an empty string: the letter's final physical line is empty,
and when a contact block is present the letter's first physical line is
empty as well (the block starts with the empty name, not with the first
non-empty contact field). -/
theorem empty_name_line_positions (r : Record) (d : Draws) (h : applicant_name r = "") :
    (pyLines (generate_letter r d)).getLast? = some ""
    ∧ ((applicant_address r ≠ "" ∨ applicant_email r ≠ "" ∨ applicant_phone r ≠ "") →
        (pyLines (generate_letter r d)).headD "" = "") := by
  constructor
  · obtain ⟨F, hF, hFne⟩ :
        ∃ F, letterBlocks r d = F ++ ["Mit freundlichen Grüßen", applicant_name r] ∧ F ≠ [] := by
      refine ⟨(if applicant_address r ≠ "" ∨ applicant_email r ≠ "" ∨ applicant_phone r ≠ ""
            then [pyJoin "\n" (contact_lines r), ""] else [])
          ++ ([salutation, "", introPart r d]
              ++ (if strengths r = "" then []
                  else ["", choose_sentence strength_sentences (context r) d.strengthsDraw])
              ++ (if motivation r = "" then []
                  else ["", choose_sentence motivation_sentences (context r) d.motivationDraw])
              ++ ["", closingPart r d, ""]), ?_, ?_⟩
      · rw [letterBlocks_eq r d, baseBlocks_concat r d, ← List.append_assoc]
      · simp
    rw [generate_letter_blocks, hF, pyJoin_append "\n" F _ hFne (by simp)]
    rw [show pyJoin "\n" ["Mit freundlichen Grüßen", applicant_name r]
          = "Mit freundlichen Grüßen" ++ "\n" ++ applicant_name r from rfl]
    rw [pyLines_append_newline, pyLines_append_newline, h]
    rw [show pyLines "" = [""] from rfl, ← List.append_assoc]
    exact List.getLast?_concat _
  · intro hc
    rw [generate_letter_contact r d hc]
    have hsh : contact_lines r ++ "" :: baseBlocks r d
        = "" :: (((if applicant_address r = "" then [] else [applicant_address r])
            ++ (if applicant_email r = "" then [] else [applicant_email r])
            ++ (if applicant_phone r = "" then [] else [applicant_phone r]))
            ++ "" :: baseBlocks r d) := by
      unfold contact_lines
      rw [h]
      simp [List.append_assoc]
    rw [hsh]
    obtain ⟨y, ys, hT⟩ : ∃ y ys,
        ((if applicant_address r = "" then [] else [applicant_address r])
          ++ (if applicant_email r = "" then [] else [applicant_email r])
          ++ (if applicant_phone r = "" then [] else [applicant_phone r]))
          ++ "" :: baseBlocks r d = y :: ys := by
      cases hx : ((if applicant_address r = "" then [] else [applicant_address r])
          ++ (if applicant_email r = "" then [] else [applicant_email r])
          ++ (if applicant_phone r = "" then [] else [applicant_phone r]))
          ++ "" :: baseBlocks r d with
      | nil => exact absurd hx (by simp)
      | cons y ys => exact ⟨y, ys, rfl⟩
    rw [hT, pyJoin_cons_cons, pyLines_append_newline]
    rw [show pyLines "" = [""] from rfl]
    simp

/-- Witness for C10 at a record with no name and a present address. -/
theorem empty_name_line_positions_witness :
    (pyLines (generate_letter recNoName dZero)).getLast? = some ""
    ∧ (pyLines (generate_letter recNoName dZero)).headD "" = "" :=
  ⟨(empty_name_line_positions recNoName dZero (by decide)).1,
   (empty_name_line_positions recNoName dZero (by decide)).2 (by decide)⟩

/-- C1 (amended): with all eight trimmed fields non-empty the letter is
exactly the newline-join of the contact block (name, address, email,
phone), a blank line, the salutation, and the blank-separated
introduction, strengths, motivation and closing sentences, the fixed
line `Mit freundlichen Grüßen` and the applicant name as final
component; every rendered sentence is non-empty, the fixed line occurs
as a physical line, and the applicant name is the final physical line
whenever it contains no embedded newline (the proviso the counterexample
forces). -/
theorem letter_full_record (r : Record) (d : Draws)
    (hn : applicant_name r ≠ "") (ha : applicant_address r ≠ "") (he : applicant_email r ≠ "")
    (hp : applicant_phone r ≠ "") (hj : job_title r ≠ "") (hc : company_name r ≠ "")
    (hs : strengths r ≠ "") (hm : motivation r ≠ "") :
    generate_letter r d =
      pyJoin "\n"
        [applicant_name r, applicant_address r, applicant_email r, applicant_phone r, "",
         salutation, "", introPart r d, "",
         choose_sentence strength_sentences (context r) d.strengthsDraw, "",
         choose_sentence motivation_sentences (context r) d.motivationDraw, "",
         closingPart r d, "", "Mit freundlichen Grüßen", applicant_name r]
    ∧ introPart r d ≠ ""
    ∧ choose_sentence strength_sentences (context r) d.strengthsDraw ≠ ""
    ∧ choose_sentence motivation_sentences (context r) d.motivationDraw ≠ ""
    ∧ closingPart r d ≠ ""
    ∧ "Mit freundlichen Grüßen" ∈ pyLines (generate_letter r d)
    ∧ ('\n' ∉ (applicant_name r).data →
        (pyLines (generate_letter r d)).getLast? = some (applicant_name r)) := by
  have heq : generate_letter r d =
      pyJoin "\n"
        [applicant_name r, applicant_address r, applicant_email r, applicant_phone r, "",
         salutation, "", introPart r d, "",
         choose_sentence strength_sentences (context r) d.strengthsDraw, "",
         choose_sentence motivation_sentences (context r) d.motivationDraw, "",
         closingPart r d, "", "Mit freundlichen Grüßen", applicant_name r] := by
    rw [generate_letter_contact r d (Or.inl ha), contact_lines_full r ha he hp]
    congr 1
    unfold baseBlocks
    simp [hs, hm]
  have hmem : "Mit freundlichen Grüßen" ∈ pyLines (generate_letter r d) := by
    rw [heq, pyLines_pyJoin _ (by simp)]
    refine List.mem_flatten.mpr ⟨["Mit freundlichen Grüßen"], ?_, by simp⟩
    refine List.mem_map.mpr ⟨"Mit freundlichen Grüßen", by simp, by decide⟩
  refine ⟨heq, choose_intro_ne r d.introDraw, choose_str_ne r d.strengthsDraw,
    choose_mot_ne r d.motivationDraw, choose_clo_ne r d.closingDraw, hmem, ?_⟩
  intro hnl
  rw [heq]
  rw [show ([applicant_name r, applicant_address r, applicant_email r, applicant_phone r, "",
        salutation, "", introPart r d, "",
        choose_sentence strength_sentences (context r) d.strengthsDraw, "",
        choose_sentence motivation_sentences (context r) d.motivationDraw, "",
        closingPart r d, "", "Mit freundlichen Grüßen", applicant_name r] : List String)
      = [applicant_name r, applicant_address r, applicant_email r, applicant_phone r, "",
        salutation, "", introPart r d, "",
        choose_sentence strength_sentences (context r) d.strengthsDraw, "",
        choose_sentence motivation_sentences (context r) d.motivationDraw, "",
        closingPart r d, "", "Mit freundlichen Grüßen"] ++ [applicant_name r] from rfl]
  rw [pyLines_pyJoin _ (by simp), List.map_append, List.flatten_append]
  rw [show (([applicant_name r] : List String).map pyLines).flatten
        = pyLines (applicant_name r) from by simp]
  rw [pyLines_no_newline _ hnl]
  exact List.getLast?_concat _

/-- C1 counterexample: a record satisfying every hypothesis of the claim
(all eight trimmed fields non-empty) whose applicant name contains an
embedded newline; the letter's final physical line is then the last line
of the name, not the applicant name itself. -/
theorem letter_full_record_cex :
    (applicant_name recNlName ≠ "" ∧ applicant_address recNlName ≠ ""
      ∧ applicant_email recNlName ≠ "" ∧ applicant_phone recNlName ≠ ""
      ∧ job_title recNlName ≠ "" ∧ company_name recNlName ≠ ""
      ∧ strengths recNlName ≠ "" ∧ motivation recNlName ≠ "")
    ∧ (pyLines (generate_letter recNlName dZero)).getLast? ≠ some (applicant_name recNlName) := by
  exact ⟨⟨by decide, by decide, by decide, by decide, by decide, by decide, by decide, by decide⟩,
    by decide⟩

/-- Witness for C1 at the fully populated record. -/
theorem letter_full_record_witness :
    generate_letter recW dZero =
      pyJoin "\n"
        [applicant_name recW, applicant_address recW, applicant_email recW, applicant_phone recW, "",
         salutation, "", introPart recW dZero, "",
         choose_sentence strength_sentences (context recW) dZero.strengthsDraw, "",
         choose_sentence motivation_sentences (context recW) dZero.motivationDraw, "",
         closingPart recW dZero, "", "Mit freundlichen Grüßen", applicant_name recW]
    ∧ introPart recW dZero ≠ ""
    ∧ choose_sentence strength_sentences (context recW) dZero.strengthsDraw ≠ ""
    ∧ choose_sentence motivation_sentences (context recW) dZero.motivationDraw ≠ ""
    ∧ closingPart recW dZero ≠ ""
    ∧ "Mit freundlichen Grüßen" ∈ pyLines (generate_letter recW dZero)
    ∧ (pyLines (generate_letter recW dZero)).getLast? = some (applicant_name recW) := by
  have h := letter_full_record recW dZero (by decide) (by decide) (by decide) (by decide)
    (by decide) (by decide) (by decide) (by decide)
  exact ⟨h.1, h.2.1, h.2.2.1, h.2.2.2.1, h.2.2.2.2.1, h.2.2.2.2.2.1,
    h.2.2.2.2.2.2 (by decide)⟩

/-- C3 (amended): with at least one non-empty contact field the letter
is the newline-join of the contact block — the applicant name followed
by exactly the non-empty contact fields as components in the fixed order
address, email, phone — then one blank component before the remaining
blocks; when additionally no contact value embeds a newline, the
components are literally the first physical lines, followed by a blank
line and then the salutation line (the newline-free proviso is what the
counterexample forces).  With all three contact fields empty no contact
block exists and the first physical line is exactly the salutation. -/
theorem contact_block_structure (r : Record) (d : Draws) :
    ((applicant_address r ≠ "" ∨ applicant_email r ≠ "" ∨ applicant_phone r ≠ "") →
       generate_letter r d = pyJoin "\n" (contact_lines r ++ "" :: baseBlocks r d)
       ∧ ((∀ x ∈ contact_lines r, '\n' ∉ x.data) →
            (pyLines (generate_letter r d)).take (contact_lines r).length = contact_lines r
            ∧ (pyLines (generate_letter r d))[(contact_lines r).length]? = some ""
            ∧ (pyLines (generate_letter r d))[(contact_lines r).length + 1]? = some salutation))
    ∧ (applicant_address r = "" → applicant_email r = "" → applicant_phone r = "" →
        (pyLines (generate_letter r d)).headD "" = salutation) := by
  constructor
  · intro hc
    have heq := generate_letter_contact r d hc
    refine ⟨heq, ?_⟩
    intro hnl
    have hlines : pyLines (generate_letter r d)
        = contact_lines r ++ "" :: pyLines (pyJoin "\n" (baseBlocks r d)) := by
      rw [heq, pyLines_pyJoin _ (by simp), List.map_append, List.flatten_append]
      rw [flatten_lines_of_no_newline _ hnl]
      rw [show (("" :: baseBlocks r d).map pyLines).flatten
            = "" :: ((baseBlocks r d).map pyLines).flatten from by
          simp [show pyLines "" = [""] from rfl]]
      rw [← pyLines_pyJoin _ (baseBlocks_ne_nil r d)]
    refine ⟨?_, ?_, ?_⟩
    · rw [hlines]
      exact List.take_left _ _
    · rw [hlines, List.getElem?_append_right (le_refl _)]
      simp
    · rw [hlines, List.getElem?_append_right (by omega)]
      have harith : (contact_lines r).length + 1 - (contact_lines r).length = 1 := by omega
      rw [harith]
      obtain ⟨tl, htl⟩ := baseBlocks_shape r d
      rw [htl, pyJoin_cons_cons, pyLines_append_newline]
      rw [show pyLines salutation = [salutation] from by decide]
      simp
  · intro h1 h2 h3
    have hnc : ¬(applicant_address r ≠ "" ∨ applicant_email r ≠ "" ∨ applicant_phone r ≠ "") := by
      simp [h1, h2, h3]
    rw [generate_letter_nocontact r d hnc]
    obtain ⟨tl, htl⟩ := baseBlocks_shape r d
    rw [htl, pyJoin_cons_cons, pyLines_append_newline]
    rw [show pyLines salutation = [salutation] from by decide]
    simp

/-- C3 counterexample: with a newline inside the only non-empty contact
field the physical lines after the name are the two halves of the
address, not the address on one line followed by the blank line the
claim describes. -/
theorem contact_block_structure_cex :
    applicant_address recNlAddr ≠ ""
    ∧ ¬((pyLines (generate_letter recNlAddr dZero)).take 3
        = [applicant_name recNlAddr, applicant_address recNlAddr, ""]) :=
  ⟨by decide, by decide⟩

/-- Witness for C3 at the fully populated record. -/
theorem contact_block_structure_witness :
    (pyLines (generate_letter recW dZero)).take (contact_lines recW).length = contact_lines recW
    ∧ (pyLines (generate_letter recW dZero))[(contact_lines recW).length]? = some ""
    ∧ (pyLines (generate_letter recW dZero))[(contact_lines recW).length + 1]? = some salutation :=
  ((contact_block_structure recW dZero).1 (by decide)).2 (by decide)

/-- Dropping a non-empty, newline-free strengths field removes exactly
two physical lines (the sentence line and its preceding blank line). -/
lemma lineCount_strengths_drop (r : Record) (d : Draws)
    (hs : strengths r ≠ "") (hnl : '\n' ∉ (strengths r).data) :
    lineCount (generate_letter r d)
      = lineCount (generate_letter { r with strengths := none } d) + 2 := by
  have hintro : introPart { r with strengths := none } d = introPart r d :=
    choose_intro_ctx { r with strengths := none } r d.introDraw rfl rfl
  have hmotc : choose_sentence motivation_sentences (context { r with strengths := none })
      d.motivationDraw = choose_sentence motivation_sentences (context r) d.motivationDraw :=
    choose_mot_ctx { r with strengths := none } r d.motivationDraw rfl
  have hclo : closingPart { r with strengths := none } d = closingPart r d :=
    choose_clo_ctx { r with strengths := none } r d.closingDraw
  have hb1 : letterBlocks r d =
      (if applicant_address r ≠ "" ∨ applicant_email r ≠ "" ∨ applicant_phone r ≠ ""
        then [pyJoin "\n" (contact_lines r), ""] else [])
      ++ ([salutation, "", introPart r d]
          ++ ["", choose_sentence strength_sentences (context r) d.strengthsDraw]
          ++ (if motivation r = "" then []
              else ["", choose_sentence motivation_sentences (context r) d.motivationDraw])
          ++ ["", closingPart r d, "", "Mit freundlichen Grüßen", applicant_name r]) := by
    rw [letterBlocks_eq]
    unfold baseBlocks
    rw [if_neg hs]
  have hb0 : letterBlocks { r with strengths := none } d =
      (if applicant_address r ≠ "" ∨ applicant_email r ≠ "" ∨ applicant_phone r ≠ ""
        then [pyJoin "\n" (contact_lines r), ""] else [])
      ++ ([salutation, "", introPart r d]
          ++ (if motivation r = "" then []
              else ["", choose_sentence motivation_sentences (context r) d.motivationDraw])
          ++ ["", closingPart r d, "", "Mit freundlichen Grüßen", applicant_name r]) := by
    rw [letterBlocks_eq]
    unfold baseBlocks
    rw [show strengths { r with strengths := none } = "" from rfl, if_pos rfl]
    rw [show applicant_address { r with strengths := none } = applicant_address r from rfl]
    rw [show applicant_email { r with strengths := none } = applicant_email r from rfl]
    rw [show applicant_phone { r with strengths := none } = applicant_phone r from rfl]
    rw [show applicant_name { r with strengths := none } = applicant_name r from rfl]
    rw [show motivation { r with strengths := none } = motivation r from rfl]
    rw [show contact_lines { r with strengths := none } = contact_lines r from rfl]
    rw [hintro, hmotc, hclo]
    simp
  rw [lineCount_generate, lineCount_generate, hb1, hb0]
  simp only [List.map_append, List.sum_append, List.map_cons, List.sum_cons, List.map_nil,
    List.sum_nil, List.length_cons, List.length_nil,
    pyLines_no_newline (choose_sentence strength_sentences (context r) d.strengthsDraw)
      (choose_str_no_newline r d.strengthsDraw hnl),
    show pyLines "" = [""] from rfl]
  omega

/-- Dropping a non-empty, newline-free motivation field removes exactly
two physical lines. -/
lemma lineCount_motivation_drop (r : Record) (d : Draws)
    (hm : motivation r ≠ "") (hnl : '\n' ∉ (motivation r).data) :
    lineCount (generate_letter r d)
      = lineCount (generate_letter { r with motivation := none } d) + 2 := by
  have hintro : introPart { r with motivation := none } d = introPart r d :=
    choose_intro_ctx { r with motivation := none } r d.introDraw rfl rfl
  have hstrc : choose_sentence strength_sentences (context { r with motivation := none })
      d.strengthsDraw = choose_sentence strength_sentences (context r) d.strengthsDraw :=
    choose_str_ctx { r with motivation := none } r d.strengthsDraw rfl
  have hclo : closingPart { r with motivation := none } d = closingPart r d :=
    choose_clo_ctx { r with motivation := none } r d.closingDraw
  have hb1 : letterBlocks r d =
      (if applicant_address r ≠ "" ∨ applicant_email r ≠ "" ∨ applicant_phone r ≠ ""
        then [pyJoin "\n" (contact_lines r), ""] else [])
      ++ ([salutation, "", introPart r d]
          ++ (if strengths r = "" then []
              else ["", choose_sentence strength_sentences (context r) d.strengthsDraw])
          ++ ["", choose_sentence motivation_sentences (context r) d.motivationDraw]
          ++ ["", closingPart r d, "", "Mit freundlichen Grüßen", applicant_name r]) := by
    rw [letterBlocks_eq]
    unfold baseBlocks
    rw [if_neg hm]
  have hb0 : letterBlocks { r with motivation := none } d =
      (if applicant_address r ≠ "" ∨ applicant_email r ≠ "" ∨ applicant_phone r ≠ ""
        then [pyJoin "\n" (contact_lines r), ""] else [])
      ++ ([salutation, "", introPart r d]
          ++ (if strengths r = "" then []
              else ["", choose_sentence strength_sentences (context r) d.strengthsDraw])
          ++ ["", closingPart r d, "", "Mit freundlichen Grüßen", applicant_name r]) := by
    rw [letterBlocks_eq]
    unfold baseBlocks
    rw [show motivation { r with motivation := none } = "" from rfl, if_pos rfl]
    rw [show applicant_address { r with motivation := none } = applicant_address r from rfl]
    rw [show applicant_email { r with motivation := none } = applicant_email r from rfl]
    rw [show applicant_phone { r with motivation := none } = applicant_phone r from rfl]
    rw [show applicant_name { r with motivation := none } = applicant_name r from rfl]
    rw [show strengths { r with motivation := none } = strengths r from rfl]
    rw [show contact_lines { r with motivation := none } = contact_lines r from rfl]
    rw [hintro, hstrc, hclo]
    simp
  rw [lineCount_generate, lineCount_generate, hb1, hb0]
  simp only [List.map_append, List.sum_append, List.map_cons, List.sum_cons, List.map_nil,
    List.sum_nil, List.length_cons, List.length_nil,
    pyLines_no_newline (choose_sentence motivation_sentences (context r) d.motivationDraw)
      (choose_mot_no_newline r d.motivationDraw hnl),
    show pyLines "" = [""] from rfl]
  omega

/-- C5 (amended): relative to the same record with strengths omitted
(and the same remaining draws) the strengths section contributes no
block (its rendered part is empty), and the physical line count is
larger by exactly two — one sentence line plus one blank line —
provided the trimmed strengths value contains no embedded newline (the
proviso the counterexample forces: a value with an embedded newline
contributes correspondingly more lines); analogously for motivation. -/
theorem omitted_section_linecount (r : Record) (d : Draws) :
    (strengths r ≠ "" → '\n' ∉ (strengths r).data →
       lineCount (generate_letter r d)
         = lineCount (generate_letter { r with strengths := none } d) + 2
       ∧ strength_part { r with strengths := none } d = "")
    ∧ (motivation r ≠ "" → '\n' ∉ (motivation r).data →
       lineCount (generate_letter r d)
         = lineCount (generate_letter { r with motivation := none } d) + 2
       ∧ motivation_part { r with motivation := none } d = "") := by
  constructor
  · intro hs hnl
    exact ⟨lineCount_strengths_drop r d hs hnl,
      (strength_part_empty_iff { r with strengths := none } d).mpr rfl⟩
  · intro hm hnl
    exact ⟨lineCount_motivation_drop r d hm hnl,
      (motivation_part_empty_iff { r with motivation := none } d).mpr rfl⟩

/-- C5 counterexample: a strengths value with an embedded newline makes
the difference three lines, not the two the claim states, although the
claim's hypotheses (same record, strengths omitted versus non-empty,
same remaining draws) hold. -/
theorem omitted_section_linecount_cex :
    strengths recStrNl ≠ ""
    ∧ recNoStr = { recStrNl with strengths := none }
    ∧ ¬(lineCount (generate_letter recStrNl dZero)
        = lineCount (generate_letter recNoStr dZero) + 2) :=
  ⟨by decide, rfl, by decide⟩

/-- Witness for C5 at the fully populated record. -/
theorem omitted_section_linecount_witness :
    lineCount (generate_letter recW dZero)
      = lineCount (generate_letter { recW with strengths := none } dZero) + 2
    ∧ strength_part { recW with strengths := none } dZero = "" :=
  (omitted_section_linecount recW dZero).1 (by decide) (by decide)
